import Mathlib

/-!
Verification of `pkg/minikube/kubeconfig/settings.go`: the kubeconfig
`Settings` record, the projector `PopulateFromSettings`, and the `Update`
orchestrator, shallowly embedded in Lean.

Modelling conventions:
- Go byte slices (`[]byte`) are `List Nat`; the Go zero value `nil` is `[]`.
- `ioutil.ReadFile` is an explicit filesystem parameter
  `fs : String → Except String (List Nat)` (path to bytes or error message).
- `errors.Wrapf(err, msg, args...)` produces the string `msg: err`
  (the pkg/errors rendering), modelled by `wrap`.
- Go maps are functions `String → Option α`; map assignment is pointwise
  functional update.
- In-place mutation of the `*api.Config` argument is explicit state passing:
  the projector returns the resulting document together with an optional
  error, so the document state at an early `return err` is observable.
- `time.Now().String()` is a `lastUpdate : String` parameter, taken once at
  the start of the call, as in the source.
- Go heap identity (needed to talk about the two `ext.DeepCopy()` results
  not aliasing one object) is an explicit `objId : Nat` on the extension
  record: each `DeepCopy` allocation in the call body gets a distinct id.
-/

namespace Kubeconfig

/-- Extension metadata blob (`internalExtension` in the source): provenance
stamp with creator tag and last-update timestamp. `objId` models Go heap
identity of the allocated object. -/
structure internalExtension where
  objId : Nat
  CreatedBy : String
  LastUpdate : String
  deriving DecidableEq, Repr

/-- A cluster entry of the document (`api.Cluster`), with the fields the
source touches. `api.NewCluster()` yields the defaults below. -/
structure Cluster where
  Server : String := ""
  CertificateAuthority : String := ""
  CertificateAuthorityData : List Nat := []
  Extensions : String → Option internalExtension := fun _ => none

/-- A credential entry of the document (`api.AuthInfo`), with the fields the
source touches. `api.NewAuthInfo()` yields the defaults below. -/
structure AuthInfo where
  ClientCertificate : String := ""
  ClientKey : String := ""
  ClientCertificateData : List Nat := []
  ClientKeyData : List Nat := []

/-- A context entry of the document (`api.Context`), with the fields the
source touches. `api.NewContext()` yields the defaults below. -/
structure Context where
  Cluster : String := ""
  AuthInfo : String := ""
  Namespace : String := ""
  Extensions : String → Option internalExtension := fun _ => none

/-- The client configuration document (`api.Config`): three name-keyed
mappings plus the current-context scalar. -/
structure Config where
  Clusters : String → Option Cluster
  AuthInfos : String → Option AuthInfo
  Contexts : String → Option Context
  CurrentContext : String

/-- The empty document (`api.NewConfig()`): empty maps, no current context. -/
def emptyConfig : Config :=
  { Clusters := fun _ => none
    AuthInfos := fun _ => none
    Contexts := fun _ => none
    CurrentContext := "" }

/-- The `Settings` record from the source. `kubeConfigFile` is the
atomic.Value holding the target path: `none` before `SetPath`. -/
structure Settings where
  ClusterName : String
  Namespace : String := ""
  ClusterServerAddress : String := ""
  ClientCertificate : String := ""
  CertificateAuthority : String := ""
  ClientKey : String := ""
  KeepContext : Bool := false
  EmbedCerts : Bool := false
  kubeConfigFile : Option String := none

/-- `SetPath` stores the target kubeconfig file path. -/
def SetPath (k : Settings) (p : String) : Settings :=
  { k with kubeConfigFile := some p }

/-- `filePath` loads the stored path; in Go an unset atomic.Value makes the
type assertion panic, here it is `none`. -/
def filePath (k : Settings) : Option String :=
  k.kubeConfigFile

/-- `errors.Wrapf(err, msg)`: the pkg/errors message rendering `msg: err`. -/
def wrap (msg cause : String) : String :=
  msg ++ ": " ++ cause

/-- Go map assignment `m[key] = v`: pointwise functional update. -/
def mapSet {α : Type} (m : String → Option α) (key : String) (v : α) :
    String → Option α :=
  fun k => if k = key then some v else m k

/-- The provenance stamp built once per `PopulateFromSettings` call: creator
tag and the `lastUpdate` timestamp, at heap id `objId`. -/
def stampExt (objId : Nat) (lastUpdate : String) : internalExtension :=
  { objId := objId, CreatedBy := "minikube.sigs.k8s.io", LastUpdate := lastUpdate }

/-- The cluster-entry construction of `PopulateFromSettings` (source lines
78–88): `api.NewCluster()`, set `Server`, then embed the CA bytes or store
the CA path by reference. -/
def buildCluster (fs : String → Except String (List Nat)) (cfg : Settings) :
    Except String Cluster :=
  let cluster : Cluster := { Server := cfg.ClusterServerAddress }
  if cfg.EmbedCerts then
    match fs cfg.CertificateAuthority with
    | .error e =>
        .error (wrap ("reading CertificateAuthority " ++ cfg.CertificateAuthority) e)
    | .ok data => .ok { cluster with CertificateAuthorityData := data }
  else
    .ok { cluster with CertificateAuthority := cfg.CertificateAuthority }

/-- The credential-entry construction of `PopulateFromSettings` (source lines
101–113): `api.NewAuthInfo()`, then embed client certificate and key (in that
order, either read failing first) or store both paths by reference. -/
def buildUser (fs : String → Except String (List Nat)) (cfg : Settings) :
    Except String AuthInfo :=
  let user : AuthInfo := {}
  if cfg.EmbedCerts then
    match fs cfg.ClientCertificate with
    | .error e =>
        .error (wrap ("reading ClientCertificate " ++ cfg.ClientCertificate) e)
    | .ok certData =>
      match fs cfg.ClientKey with
      | .error e => .error (wrap ("reading ClientKey " ++ cfg.ClientKey) e)
      | .ok keyData =>
          .ok { user with ClientCertificateData := certData, ClientKeyData := keyData }
  else
    .ok { user with ClientCertificate := cfg.ClientCertificate,
                    ClientKey := cfg.ClientKey }

/-- `PopulateFromSettings(cfg, apiCfg)`: projects a `Settings` record into the
document's cluster/credential/context mappings. Returns the document state at
return time (the Go code mutates `apiCfg` in place) together with the error,
`none` on success. `lastUpdate` is the `time.Now().String()` taken once. -/
def PopulateFromSettings (fs : String → Except String (List Nat))
    (lastUpdate : String) (cfg : Settings) (apiCfg : Config) :
    Config × Option String :=
  let clusterName := cfg.ClusterName
  match buildCluster fs cfg with
  | .error e => (apiCfg, some e)
  | .ok cluster =>
    let ext : internalExtension := stampExt 0 lastUpdate
    let cluster :=
      { cluster with Extensions := mapSet (fun _ => none) "cluster_info" { ext with objId := 1 } }
    let apiCfg1 := { apiCfg with Clusters := mapSet apiCfg.Clusters clusterName cluster }
    let userName := cfg.ClusterName
    match buildUser fs cfg with
    | .error e => (apiCfg1, some e)
    | .ok user =>
      let apiCfg2 := { apiCfg1 with AuthInfos := mapSet apiCfg1.AuthInfos userName user }
      let contextName := cfg.ClusterName
      let context : Context :=
        { Cluster := cfg.ClusterName
          Namespace := cfg.Namespace
          AuthInfo := userName
          Extensions := mapSet (fun _ => none) "context_info" { ext with objId := 2 } }
      let apiCfg3 := { apiCfg2 with Contexts := mapSet apiCfg2.Contexts contextName context }
      let apiCfg4 :=
        if !cfg.KeepContext then { apiCfg3 with CurrentContext := cfg.ClusterName }
        else apiCfg3
      (apiCfg4, none)

/-- State of the on-disk file at one path, as the loader distinguishes it:
absent, present but unparsable, or present with a parsed document. -/
inductive DiskFile where
  | missing
  | unparsable (raw : String)
  | parsed (c : Config)

/-- Modelled from the spec: `readOrNew` is called by `Update` but its body is
not under src/. Per spec §4.3 step 4: load the document from the target path
if it exists and parses; a missing file falls back to the empty document; a
parse failure of an existing file is a fatal error. -/
def readOrNew (f : DiskFile) : Except String Config :=
  match f with
  | .missing => .ok emptyConfig
  | .unparsable raw => .error (wrap "parsing kubeconfig" raw)
  | .parsed c => .ok c

/-- Modelled from the spec: `writeToFile` is called by `Update` but its body
is not under src/. Per spec §4.3 step 6 and §7(4): persist the document to
the path, or fail cleanly; `writeOk` is whether the external write succeeds.
Returns the new disk state and an optional error. -/
def writeToFile (writeOk : Bool) (c : Config) (p : String)
    (disk : String → DiskFile) : (String → DiskFile) × Option String :=
  if writeOk then (fun q => if q = p then .parsed c else disk q, none)
  else (disk, some "write failed")

/-- `Update(kcs)`: read the config from disk (or create new), populate it from
the settings, write it back. The cross-process named lock is the opaque
collaborator of spec §6 and acquisition failure simply returns its wrapped
error without touching the disk, so the model is the locked body. `disk` is
the filesystem state at the target paths; the result is the disk state after
the call and the returned error. An unset path makes the Go type assertion in
`filePath` panic, modelled as an error outcome. -/
def Update (fs : String → Except String (List Nat)) (lastUpdate : String)
    (writeOk : Bool) (disk : String → DiskFile) (kcs : Settings) :
    (String → DiskFile) × Option String :=
  match filePath kcs with
  | none => (disk, some "panic: kubeconfig path not set")
  | some path =>
    match readOrNew (disk path) with
    | .error e => (disk, some e)
    | .ok kcfg =>
      match PopulateFromSettings fs lastUpdate kcs kcfg with
      | (_, some e) => (disk, some e)
      | (kcfg2, none) =>
        match writeToFile writeOk kcfg2 path disk with
        | (disk2, none) => (disk2, none)
        | (_, some e) => (disk, some (wrap "writing kubeconfig" e))

/-! ### Sample inputs used by witness theorems -/

/-- A filesystem where every path reads successfully, with path-dependent
contents. -/
def sampleFS : String → Except String (List Nat) :=
  fun p => .ok (p.toList.map Char.toNat)

/-- A filesystem where every read fails. -/
def failFS : String → Except String (List Nat) :=
  fun _ => .error "boom"

/-- A filesystem where only `"ca.crt"` reads successfully. -/
def caOnlyFS : String → Except String (List Nat) :=
  fun p => if p = "ca.crt" then .ok [1, 2] else .error "denied"

/-- A sample settings record with certificate embedding turned off. -/
def sampleSettings : Settings :=
  { ClusterName := "minikube"
    Namespace := "default"
    ClusterServerAddress := "https://192.168.49.2:8443"
    ClientCertificate := "client.crt"
    CertificateAuthority := "ca.crt"
    ClientKey := "client.key"
    KeepContext := false
    EmbedCerts := false
    kubeConfigFile := some "/home/user/.kube/config" }

/-- A sample document with a prior current-context and a prior entry under a
different key. -/
def sampleDoc : Config :=
  { Clusters := fun k => if k = "other" then some ({ Server := "https://other:6443" } : Cluster) else none
    AuthInfos := fun k => if k = "other" then some ({} : AuthInfo) else none
    Contexts := fun k => if k = "other" then some ({ Cluster := "other", AuthInfo := "other" } : Context) else none
    CurrentContext := "other" }

/-- The cluster entry as installed by the projector: the built entry with the
`cluster_info` provenance stamp attached (first `DeepCopy`, heap id 1). -/
def stampedCluster (cl : Cluster) (lastUpdate : String) : Cluster :=
  { cl with Extensions := mapSet (fun _ => none) "cluster_info" { stampExt 0 lastUpdate with objId := 1 } }

/-- The context entry as installed by the projector: cluster and credential
references and namespace from the settings, plus the `context_info` stamp
(second `DeepCopy`, heap id 2). -/
def builtContext (cfg : Settings) (lastUpdate : String) : Context :=
  { Cluster := cfg.ClusterName
    AuthInfo := cfg.ClusterName
    Namespace := cfg.Namespace
    Extensions := mapSet (fun _ => none) "context_info" { stampExt 0 lastUpdate with objId := 2 } }

/-! ### Helper lemmas -/

/-- On the success path the projector's result is this explicit document:
entries for `cluster`, `user`, and `context` installed under `ClusterName`,
extension stamps on cluster and context, current context conditionally
replaced. -/
theorem populate_ok_eq (fs : String → Except String (List Nat))
    (lastUpdate : String) (cfg : Settings) (apiCfg : Config)
    (cl : Cluster) (us : AuthInfo)
    (hbc : buildCluster fs cfg = .ok cl) (hbu : buildUser fs cfg = .ok us) :
    PopulateFromSettings fs lastUpdate cfg apiCfg =
    ({ Clusters := mapSet apiCfg.Clusters cfg.ClusterName (stampedCluster cl lastUpdate)
       AuthInfos := mapSet apiCfg.AuthInfos cfg.ClusterName us
       Contexts := mapSet apiCfg.Contexts cfg.ClusterName (builtContext cfg lastUpdate)
       CurrentContext :=
        if cfg.KeepContext then apiCfg.CurrentContext else cfg.ClusterName }, none) := by
  unfold PopulateFromSettings
  rw [hbc, hbu]
  cases hkc : cfg.KeepContext <;> simp [hkc, stampedCluster, builtContext, stampExt]

/-- A successful projection means both entry constructions succeeded. -/
theorem populate_success_inv (fs : String → Except String (List Nat))
    (lastUpdate : String) (cfg : Settings) (apiCfg : Config) (c : Config)
    (h : PopulateFromSettings fs lastUpdate cfg apiCfg = (c, none)) :
    ∃ cl us, buildCluster fs cfg = .ok cl ∧ buildUser fs cfg = .ok us := by
  cases hbc : buildCluster fs cfg with
  | error e =>
      unfold PopulateFromSettings at h
      rw [hbc] at h
      simp at h
  | ok cl =>
      cases hbu : buildUser fs cfg with
      | error e =>
          unfold PopulateFromSettings at h
          rw [hbc, hbu] at h
          simp at h
      | ok us => exact ⟨cl, us, rfl, rfl⟩

/-- On a cluster-construction failure the projector returns the wrapped error
with the document untouched. -/
theorem populate_cluster_error_eq (fs : String → Except String (List Nat))
    (lastUpdate : String) (cfg : Settings) (apiCfg : Config) (e : String)
    (hbc : buildCluster fs cfg = .error e) :
    PopulateFromSettings fs lastUpdate cfg apiCfg = (apiCfg, some e) := by
  unfold PopulateFromSettings
  rw [hbc]

/-- On a credential-construction failure the projector returns the wrapped
error with the cluster entry already installed and nothing else changed. -/
theorem populate_user_error_eq (fs : String → Except String (List Nat))
    (lastUpdate : String) (cfg : Settings) (apiCfg : Config)
    (cl : Cluster) (e : String)
    (hbc : buildCluster fs cfg = .ok cl) (hbu : buildUser fs cfg = .error e) :
    PopulateFromSettings fs lastUpdate cfg apiCfg =
    ({ apiCfg with
        Clusters := mapSet apiCfg.Clusters cfg.ClusterName (stampedCluster cl lastUpdate) },
      some e) := by
  unfold PopulateFromSettings
  rw [hbc, hbu]
  simp [stampedCluster, stampExt]

/-! ### Claim theorems -/

/-- C2: after a successful `PopulateFromSettings`, the cluster entry, the
credential (AuthInfo) entry, and the context entry are all stored under the
key `ClusterName`, and the context entry's cluster reference and credential
reference both equal `ClusterName`. -/
theorem populate_entries_share_clusterName (fs : String → Except String (List Nat))
    (lastUpdate : String) (cfg : Settings) (apiCfg : Config) (c : Config)
    (h : PopulateFromSettings fs lastUpdate cfg apiCfg = (c, none)) :
    (c.Clusters cfg.ClusterName).isSome ∧
    (c.AuthInfos cfg.ClusterName).isSome ∧
    ∃ ctx, c.Contexts cfg.ClusterName = some ctx ∧
      ctx.Cluster = cfg.ClusterName ∧ ctx.AuthInfo = cfg.ClusterName := by
  obtain ⟨cl, us, hbc, hbu⟩ := populate_success_inv fs lastUpdate cfg apiCfg c h
  rw [populate_ok_eq fs lastUpdate cfg apiCfg cl us hbc hbu] at h
  simp only [Prod.mk.injEq, and_true] at h
  subst h
  refine ⟨by simp [mapSet], by simp [mapSet], builtContext cfg lastUpdate, ?_, rfl, rfl⟩
  simp [mapSet]

/-- C2 witness: concrete successful projection into the empty document. -/
theorem populate_entries_share_clusterName_witness :
    (((PopulateFromSettings sampleFS "t" sampleSettings emptyConfig).1.Clusters
        sampleSettings.ClusterName).isSome ∧
    ((PopulateFromSettings sampleFS "t" sampleSettings emptyConfig).1.AuthInfos
        sampleSettings.ClusterName).isSome ∧
    ∃ ctx, (PopulateFromSettings sampleFS "t" sampleSettings emptyConfig).1.Contexts
        sampleSettings.ClusterName = some ctx ∧
      ctx.Cluster = sampleSettings.ClusterName ∧
      ctx.AuthInfo = sampleSettings.ClusterName) :=
  populate_entries_share_clusterName sampleFS "t" sampleSettings emptyConfig
    (PopulateFromSettings sampleFS "t" sampleSettings emptyConfig).1 rfl

/-- C3: after a successful `PopulateFromSettings`, the current-context equals
`ClusterName` when `KeepContext` is false, and is exactly the document's
prior current-context when `KeepContext` is true. -/
theorem populate_currentContext (fs : String → Except String (List Nat))
    (lastUpdate : String) (cfg : Settings) (apiCfg : Config) (c : Config)
    (h : PopulateFromSettings fs lastUpdate cfg apiCfg = (c, none)) :
    c.CurrentContext =
      if cfg.KeepContext then apiCfg.CurrentContext else cfg.ClusterName := by
  obtain ⟨cl, us, hbc, hbu⟩ := populate_success_inv fs lastUpdate cfg apiCfg c h
  rw [populate_ok_eq fs lastUpdate cfg apiCfg cl us hbc hbu] at h
  simp only [Prod.mk.injEq, and_true] at h
  subst h
  rfl

/-- C3 witness: with `KeepContext = true` the prior current-context `"other"`
survives the projection. -/
theorem populate_currentContext_witness :
    (PopulateFromSettings sampleFS "t" { sampleSettings with KeepContext := true }
        sampleDoc).1.CurrentContext =
      if ({ sampleSettings with KeepContext := true } : Settings).KeepContext then
        sampleDoc.CurrentContext
      else ({ sampleSettings with KeepContext := true } : Settings).ClusterName :=
  populate_currentContext sampleFS "t" { sampleSettings with KeepContext := true }
    sampleDoc
    (PopulateFromSettings sampleFS "t" { sampleSettings with KeepContext := true }
      sampleDoc).1 rfl

/-- C8: a successful `PopulateFromSettings` leaves every entry of the three
mappings whose key differs from `ClusterName` exactly as before the call. -/
theorem populate_frame_other_keys (fs : String → Except String (List Nat))
    (lastUpdate : String) (cfg : Settings) (apiCfg : Config) (c : Config) (k : String)
    (h : PopulateFromSettings fs lastUpdate cfg apiCfg = (c, none))
    (hk : k ≠ cfg.ClusterName) :
    c.Clusters k = apiCfg.Clusters k ∧
    c.AuthInfos k = apiCfg.AuthInfos k ∧
    c.Contexts k = apiCfg.Contexts k := by
  obtain ⟨cl, us, hbc, hbu⟩ := populate_success_inv fs lastUpdate cfg apiCfg c h
  rw [populate_ok_eq fs lastUpdate cfg apiCfg cl us hbc hbu] at h
  simp only [Prod.mk.injEq, and_true] at h
  subst h
  refine ⟨?_, ?_, ?_⟩ <;> simp [mapSet, hk]

/-- C8 witness: the prior entry under `"other"` survives a projection keyed
by `"minikube"`. -/
theorem populate_frame_other_keys_witness :
    "other" ≠ sampleSettings.ClusterName ∧
    ((PopulateFromSettings sampleFS "t" sampleSettings sampleDoc).1.Clusters "other" =
        sampleDoc.Clusters "other" ∧
      (PopulateFromSettings sampleFS "t" sampleSettings sampleDoc).1.AuthInfos "other" =
        sampleDoc.AuthInfos "other" ∧
      (PopulateFromSettings sampleFS "t" sampleSettings sampleDoc).1.Contexts "other" =
        sampleDoc.Contexts "other") :=
  ⟨by decide,
    populate_frame_other_keys sampleFS "t" sampleSettings sampleDoc
      (PopulateFromSettings sampleFS "t" sampleSettings sampleDoc).1 "other" rfl
      (by decide)⟩

/-- C10: within one successful `PopulateFromSettings` call, the cluster
entry's `cluster_info` extension and the context entry's `context_info`
extension both carry the creator `minikube.sigs.k8s.io` and the same
last-update timestamp taken once at the start of the call, and — being two
distinct `DeepCopy` allocations — they do not alias one object. -/
theorem populate_extension_stamps (fs : String → Except String (List Nat))
    (lastUpdate : String) (cfg : Settings) (apiCfg : Config) (c : Config)
    (h : PopulateFromSettings fs lastUpdate cfg apiCfg = (c, none)) :
    ∃ cl ctx e1 e2,
      c.Clusters cfg.ClusterName = some cl ∧
      c.Contexts cfg.ClusterName = some ctx ∧
      cl.Extensions "cluster_info" = some e1 ∧
      ctx.Extensions "context_info" = some e2 ∧
      e1.CreatedBy = "minikube.sigs.k8s.io" ∧
      e2.CreatedBy = "minikube.sigs.k8s.io" ∧
      e1.LastUpdate = lastUpdate ∧
      e2.LastUpdate = lastUpdate ∧
      e1.objId ≠ e2.objId := by
  obtain ⟨cl, us, hbc, hbu⟩ := populate_success_inv fs lastUpdate cfg apiCfg c h
  rw [populate_ok_eq fs lastUpdate cfg apiCfg cl us hbc hbu] at h
  simp only [Prod.mk.injEq, and_true] at h
  subst h
  refine ⟨stampedCluster cl lastUpdate, builtContext cfg lastUpdate,
    { stampExt 0 lastUpdate with objId := 1 },
    { stampExt 0 lastUpdate with objId := 2 },
    by simp [mapSet], by simp [mapSet],
    by simp [stampedCluster, mapSet],
    by simp [builtContext, mapSet],
    rfl, rfl, rfl, rfl, by simp⟩

/-- C10 witness: the two extension stamps of a concrete successful call share
creator and timestamp but have distinct heap identities. -/
theorem populate_extension_stamps_witness :
    ∃ cl ctx e1 e2,
      (PopulateFromSettings sampleFS "t" sampleSettings emptyConfig).1.Clusters
          sampleSettings.ClusterName = some cl ∧
      (PopulateFromSettings sampleFS "t" sampleSettings emptyConfig).1.Contexts
          sampleSettings.ClusterName = some ctx ∧
      cl.Extensions "cluster_info" = some e1 ∧
      ctx.Extensions "context_info" = some e2 ∧
      e1.CreatedBy = "minikube.sigs.k8s.io" ∧
      e2.CreatedBy = "minikube.sigs.k8s.io" ∧
      e1.LastUpdate = "t" ∧
      e2.LastUpdate = "t" ∧
      e1.objId ≠ e2.objId :=
  populate_extension_stamps sampleFS "t" sampleSettings emptyConfig
    (PopulateFromSettings sampleFS "t" sampleSettings emptyConfig).1 rfl

/-- C4: with `EmbedCerts = false`, `PopulateFromSettings` succeeds without
reading any file (the result does not depend on the filesystem at all), and
the cluster entry's certificate-authority path and the credential entry's
client-certificate and client-key paths are the Settings' path fields
verbatim. -/
theorem populate_noEmbed_paths_verbatim (fs fs2 : String → Except String (List Nat))
    (lastUpdate : String) (cfg : Settings) (apiCfg : Config)
    (h : cfg.EmbedCerts = false) :
    PopulateFromSettings fs lastUpdate cfg apiCfg =
      PopulateFromSettings fs2 lastUpdate cfg apiCfg ∧
    (PopulateFromSettings fs lastUpdate cfg apiCfg).2 = none ∧
    ∃ cl us,
      (PopulateFromSettings fs lastUpdate cfg apiCfg).1.Clusters cfg.ClusterName =
        some cl ∧
      cl.CertificateAuthority = cfg.CertificateAuthority ∧
      (PopulateFromSettings fs lastUpdate cfg apiCfg).1.AuthInfos cfg.ClusterName =
        some us ∧
      us.ClientCertificate = cfg.ClientCertificate ∧
      us.ClientKey = cfg.ClientKey := by
  have hbc : ∀ g : String → Except String (List Nat), buildCluster g cfg =
      .ok { Server := cfg.ClusterServerAddress,
            CertificateAuthority := cfg.CertificateAuthority } := by
    intro g
    simp [buildCluster, h]
  have hbu : ∀ g : String → Except String (List Nat), buildUser g cfg =
      .ok { ClientCertificate := cfg.ClientCertificate, ClientKey := cfg.ClientKey } := by
    intro g
    simp [buildUser, h]
  refine ⟨?_, ?_, ?_⟩
  · rw [populate_ok_eq fs lastUpdate cfg apiCfg _ _ (hbc fs) (hbu fs),
        populate_ok_eq fs2 lastUpdate cfg apiCfg _ _ (hbc fs2) (hbu fs2)]
  · rw [populate_ok_eq fs lastUpdate cfg apiCfg _ _ (hbc fs) (hbu fs)]
  · rw [populate_ok_eq fs lastUpdate cfg apiCfg _ _ (hbc fs) (hbu fs)]
    exact ⟨stampedCluster { Server := cfg.ClusterServerAddress, CertificateAuthority := cfg.CertificateAuthority } lastUpdate,
      { ClientCertificate := cfg.ClientCertificate, ClientKey := cfg.ClientKey },
      by simp [mapSet], rfl, by simp [mapSet], rfl, rfl⟩

/-- C4 witness: with embedding off, a filesystem where every read fails gives
the same result as one where every read succeeds, and the paths are stored
verbatim. -/
theorem populate_noEmbed_paths_verbatim_witness :
    PopulateFromSettings failFS "t" sampleSettings sampleDoc =
      PopulateFromSettings sampleFS "t" sampleSettings sampleDoc ∧
    (PopulateFromSettings failFS "t" sampleSettings sampleDoc).2 = none ∧
    ∃ cl us,
      (PopulateFromSettings failFS "t" sampleSettings sampleDoc).1.Clusters
        sampleSettings.ClusterName = some cl ∧
      cl.CertificateAuthority = sampleSettings.CertificateAuthority ∧
      (PopulateFromSettings failFS "t" sampleSettings sampleDoc).1.AuthInfos
        sampleSettings.ClusterName = some us ∧
      us.ClientCertificate = sampleSettings.ClientCertificate ∧
      us.ClientKey = sampleSettings.ClientKey :=
  populate_noEmbed_paths_verbatim failFS sampleFS "t" sampleSettings sampleDoc rfl

/-- C5: with `EmbedCerts = true` and all three certificate files readable,
the projection succeeds, the cluster entry inlines the CA file's bytes and
the credential entry inlines the client-certificate and client-key bytes,
and the corresponding path-reference fields are empty strings. -/
theorem populate_embed_certs_inlined (fs : String → Except String (List Nat))
    (lastUpdate : String) (cfg : Settings) (apiCfg : Config)
    (caData certData keyData : List Nat)
    (h : cfg.EmbedCerts = true)
    (hca : fs cfg.CertificateAuthority = .ok caData)
    (hcert : fs cfg.ClientCertificate = .ok certData)
    (hkey : fs cfg.ClientKey = .ok keyData) :
    (PopulateFromSettings fs lastUpdate cfg apiCfg).2 = none ∧
    ∃ cl us,
      (PopulateFromSettings fs lastUpdate cfg apiCfg).1.Clusters cfg.ClusterName =
        some cl ∧
      cl.CertificateAuthorityData = caData ∧
      cl.CertificateAuthority = "" ∧
      (PopulateFromSettings fs lastUpdate cfg apiCfg).1.AuthInfos cfg.ClusterName =
        some us ∧
      us.ClientCertificateData = certData ∧
      us.ClientKeyData = keyData ∧
      us.ClientCertificate = "" ∧
      us.ClientKey = "" := by
  have hbc : buildCluster fs cfg =
      .ok { Server := cfg.ClusterServerAddress, CertificateAuthorityData := caData } := by
    simp [buildCluster, h, hca]
  have hbu : buildUser fs cfg =
      .ok { ClientCertificateData := certData, ClientKeyData := keyData } := by
    simp [buildUser, h, hcert, hkey]
  rw [populate_ok_eq fs lastUpdate cfg apiCfg _ _ hbc hbu]
  exact ⟨rfl,
    stampedCluster { Server := cfg.ClusterServerAddress, CertificateAuthorityData := caData } lastUpdate,
    { ClientCertificateData := certData, ClientKeyData := keyData },
    by simp [mapSet], rfl, rfl, by simp [mapSet], rfl, rfl, rfl, rfl⟩

/-- C5 witness: concrete embedding run where every path reads successfully
and the inlined bytes equal the files' contents. -/
theorem populate_embed_certs_inlined_witness :
    (PopulateFromSettings sampleFS "t"
      { sampleSettings with EmbedCerts := true } sampleDoc).2 = none ∧
    ∃ cl us,
      (PopulateFromSettings sampleFS "t"
        { sampleSettings with EmbedCerts := true } sampleDoc).1.Clusters
          ({ sampleSettings with EmbedCerts := true } : Settings).ClusterName = some cl ∧
      cl.CertificateAuthorityData = ("ca.crt".toList.map Char.toNat) ∧
      cl.CertificateAuthority = "" ∧
      (PopulateFromSettings sampleFS "t"
        { sampleSettings with EmbedCerts := true } sampleDoc).1.AuthInfos
          ({ sampleSettings with EmbedCerts := true } : Settings).ClusterName = some us ∧
      us.ClientCertificateData = ("client.crt".toList.map Char.toNat) ∧
      us.ClientKeyData = ("client.key".toList.map Char.toNat) ∧
      us.ClientCertificate = "" ∧
      us.ClientKey = "" :=
  populate_embed_certs_inlined sampleFS "t" { sampleSettings with EmbedCerts := true }
    sampleDoc _ _ _ rfl rfl rfl rfl

/-- C6: with `EmbedCerts = true`, a failing certificate-authority read makes
`PopulateFromSettings` return the wrapped error naming the CA path with the
document exactly as it was — in particular the prior cluster entry under
`ClusterName`, if any, is unchanged. -/
theorem populate_ca_failure_leaves_doc (fs : String → Except String (List Nat))
    (lastUpdate : String) (cfg : Settings) (apiCfg : Config) (e : String)
    (h : cfg.EmbedCerts = true)
    (hca : fs cfg.CertificateAuthority = .error e) :
    PopulateFromSettings fs lastUpdate cfg apiCfg =
      (apiCfg,
        some (wrap ("reading CertificateAuthority " ++ cfg.CertificateAuthority) e)) ∧
    (PopulateFromSettings fs lastUpdate cfg apiCfg).1.Clusters cfg.ClusterName =
      apiCfg.Clusters cfg.ClusterName := by
  have hbc : buildCluster fs cfg =
      .error (wrap ("reading CertificateAuthority " ++ cfg.CertificateAuthority) e) := by
    simp [buildCluster, h, hca]
  have h1 := populate_cluster_error_eq fs lastUpdate cfg apiCfg _ hbc
  exact ⟨h1, by rw [h1]⟩

/-- C6 witness: concrete CA-read failure leaves the prior document (with its
`"other"` entry) untouched and surfaces the wrapped path-naming error. -/
theorem populate_ca_failure_leaves_doc_witness :
    PopulateFromSettings failFS "t" { sampleSettings with EmbedCerts := true }
        sampleDoc =
      (sampleDoc, some (wrap ("reading CertificateAuthority " ++
        ({ sampleSettings with EmbedCerts := true } : Settings).CertificateAuthority)
        "boom")) ∧
    (PopulateFromSettings failFS "t" { sampleSettings with EmbedCerts := true }
        sampleDoc).1.Clusters
        ({ sampleSettings with EmbedCerts := true } : Settings).ClusterName =
      sampleDoc.Clusters
        ({ sampleSettings with EmbedCerts := true } : Settings).ClusterName :=
  populate_ca_failure_leaves_doc failFS "t" { sampleSettings with EmbedCerts := true }
    sampleDoc "boom" rfl rfl

/-- C7: with `EmbedCerts = true`, a successful CA read followed by a failing
client-certificate or client-key read returns the wrapped error naming the
failing path; at that point the freshly built cluster entry has already been
written under `ClusterName`, while the credential (AuthInfo) mapping is left
unchanged — the three-entry sequence is not all-or-nothing. -/
theorem populate_user_failure_partial (fs : String → Except String (List Nat))
    (lastUpdate : String) (cfg : Settings) (apiCfg : Config) (caData : List Nat)
    (hembed : cfg.EmbedCerts = true)
    (hca : fs cfg.CertificateAuthority = .ok caData)
    (hfail : (∃ e, fs cfg.ClientCertificate = .error e) ∨
             (∃ e, fs cfg.ClientKey = .error e)) :
    (PopulateFromSettings fs lastUpdate cfg apiCfg).1.AuthInfos = apiCfg.AuthInfos ∧
    (PopulateFromSettings fs lastUpdate cfg apiCfg).1.Clusters cfg.ClusterName =
      some (stampedCluster
        { Server := cfg.ClusterServerAddress, CertificateAuthorityData := caData }
        lastUpdate) ∧
    ((∃ e, fs cfg.ClientCertificate = .error e ∧
        (PopulateFromSettings fs lastUpdate cfg apiCfg).2 =
          some (wrap ("reading ClientCertificate " ++ cfg.ClientCertificate) e)) ∨
     (∃ e, fs cfg.ClientKey = .error e ∧
        (PopulateFromSettings fs lastUpdate cfg apiCfg).2 =
          some (wrap ("reading ClientKey " ++ cfg.ClientKey) e))) := by
  have hbc : buildCluster fs cfg =
      .ok { Server := cfg.ClusterServerAddress, CertificateAuthorityData := caData } := by
    simp [buildCluster, hembed, hca]
  cases hce : fs cfg.ClientCertificate with
  | error e =>
      have hbu : buildUser fs cfg =
          .error (wrap ("reading ClientCertificate " ++ cfg.ClientCertificate) e) := by
        simp [buildUser, hembed, hce]
      rw [populate_user_error_eq fs lastUpdate cfg apiCfg _ _ hbc hbu]
      exact ⟨rfl, by simp [mapSet], .inl ⟨e, rfl, rfl⟩⟩
  | ok certData =>
      rcases hfail with ⟨e, he⟩ | ⟨e, he⟩
      · rw [hce] at he
        cases he
      · have hbu : buildUser fs cfg =
            .error (wrap ("reading ClientKey " ++ cfg.ClientKey) e) := by
          simp [buildUser, hembed, hce, he]
        rw [populate_user_error_eq fs lastUpdate cfg apiCfg _ _ hbc hbu]
        exact ⟨rfl, by simp [mapSet], .inr ⟨e, he, rfl⟩⟩

/-- C7 witness: CA readable, client certificate unreadable — the cluster
entry is installed, the credential mapping is untouched, and the error names
the client-certificate path. -/
theorem populate_user_failure_partial_witness :
    (PopulateFromSettings caOnlyFS "t" { sampleSettings with EmbedCerts := true }
        sampleDoc).1.AuthInfos = sampleDoc.AuthInfos ∧
    (PopulateFromSettings caOnlyFS "t" { sampleSettings with EmbedCerts := true }
        sampleDoc).1.Clusters
        ({ sampleSettings with EmbedCerts := true } : Settings).ClusterName =
      some (stampedCluster
        { Server := ({ sampleSettings with EmbedCerts := true } : Settings).ClusterServerAddress
          CertificateAuthorityData := [1, 2] } "t") ∧
    ((∃ e, caOnlyFS ({ sampleSettings with EmbedCerts := true } : Settings).ClientCertificate =
          .error e ∧
        (PopulateFromSettings caOnlyFS "t" { sampleSettings with EmbedCerts := true }
            sampleDoc).2 =
          some (wrap ("reading ClientCertificate " ++
            ({ sampleSettings with EmbedCerts := true } : Settings).ClientCertificate) e)) ∨
     (∃ e, caOnlyFS ({ sampleSettings with EmbedCerts := true } : Settings).ClientKey =
          .error e ∧
        (PopulateFromSettings caOnlyFS "t" { sampleSettings with EmbedCerts := true }
            sampleDoc).2 =
          some (wrap ("reading ClientKey " ++
            ({ sampleSettings with EmbedCerts := true } : Settings).ClientKey) e))) :=
  populate_user_failure_partial caOnlyFS "t" { sampleSettings with EmbedCerts := true }
    sampleDoc [1, 2] rfl rfl (.inl ⟨"denied", rfl⟩)

/-- C1: when the projector fails (as any certificate-read failure under
`EmbedCerts = true` does), `Update` returns that error unchanged and never
reaches the persist step: the on-disk state is exactly what it was, so the
document mutation performed up to the failure point is not persisted. -/
theorem Update_propagates_populate_error (fs : String → Except String (List Nat))
    (lastUpdate : String) (writeOk : Bool) (disk : String → DiskFile)
    (kcs : Settings) (path : String) (kcfg : Config) (e : String)
    (hpath : filePath kcs = some path)
    (_hembed : kcs.EmbedCerts = true)
    (hread : readOrNew (disk path) = .ok kcfg)
    (herr : (PopulateFromSettings fs lastUpdate kcs kcfg).2 = some e) :
    Update fs lastUpdate writeOk disk kcs = (disk, some e) := by
  unfold Update
  rw [hpath]
  dsimp only
  rw [hread]
  dsimp only
  rcases hp : PopulateFromSettings fs lastUpdate kcs kcfg with ⟨c, oe⟩
  rw [hp] at herr
  dsimp only at herr
  subst herr
  rfl

/-- C1 witness: embedding requested, every certificate read fails, the target
file is absent — `Update` surfaces the wrapped CA-read error and the disk is
untouched. -/
theorem Update_propagates_populate_error_witness :
    Update failFS "t" true (fun _ => DiskFile.missing)
        { sampleSettings with EmbedCerts := true } =
      (fun _ => DiskFile.missing, some "reading CertificateAuthority ca.crt: boom") :=
  Update_propagates_populate_error failFS "t" true (fun _ => DiskFile.missing)
    { sampleSettings with EmbedCerts := true } "/home/user/.kube/config" emptyConfig
    "reading CertificateAuthority ca.crt: boom" rfl rfl rfl rfl

/-- C9: during `Update`, loading from a target path with no existing file
yields the empty document rather than an error, while an existing file with
unparsable content makes `Update` return an error before any projection or
write, leaving the disk unmodified. -/
theorem Update_load_missing_or_unparsable (fs : String → Except String (List Nat))
    (lastUpdate : String) (writeOk : Bool) (disk1 disk2 : String → DiskFile)
    (kcs : Settings) (path raw : String)
    (hpath : filePath kcs = some path)
    (h1 : disk1 path = .missing)
    (h2 : disk2 path = .unparsable raw) :
    readOrNew (disk1 path) = .ok emptyConfig ∧
    Update fs lastUpdate writeOk disk2 kcs =
      (disk2, some (wrap "parsing kubeconfig" raw)) := by
  constructor
  · rw [h1]
    rfl
  · unfold Update
    rw [hpath]
    dsimp only
    rw [h2]
    rfl

/-- C9 witness: a missing file loads as the empty document; an unparsable
file makes the concrete `Update` call fail with the parse error and leave the
disk as it was. -/
theorem Update_load_missing_or_unparsable_witness :
    readOrNew ((fun _ => DiskFile.missing) "/home/user/.kube/config") =
      .ok emptyConfig ∧
    Update sampleFS "t" true (fun _ => DiskFile.unparsable "garbage") sampleSettings =
      (fun _ => DiskFile.unparsable "garbage",
        some (wrap "parsing kubeconfig" "garbage")) :=
  Update_load_missing_or_unparsable sampleFS "t" true (fun _ => DiskFile.missing)
    (fun _ => DiskFile.unparsable "garbage") sampleSettings
    "/home/user/.kube/config" "garbage" rfl rfl rfl

end Kubeconfig
